import Mathlib

/-!
Verification of the `channel-bot` track-request pipeline.

This file gives a shallow embedding, in Lean 4, of the core of the repository:

* the pipeline state machine and its step projection
  (`src/services/track_request_processor/track_request_processor.rs`),
* the step handlers and the request-processing loop of `TrackRequestProcessor`,
* the on-disk key/value store (`src/storage/on_disk.rs`),
* the startup task enumeration (`get_all_tasks` in `src/impls/track_request_processor.rs`),

and proves (or refutes) the specification claims about them.

Modelling conventions:
* Rust `u64`/`i64` identifiers (`UserId`, `TopicId`, `DownloadId`, `TorrentId`,
  `RadioManagerTrackId`, `RadioManagerChannelId`) are modelled as `Nat`/`Int`;
  `RequestId` (a UUID) is modelled as an opaque `Nat`; `RadioManagerLinkId` is a `String`.
* Torrent-descriptor bytes are `List Nat`.
* The four external adapters (search provider, bencode parser, torrent client,
  radio-manager client) are modelled as an `Adapters` record of pure oracles, each
  returning `Except Unit _` (the error cause is opaque in the source as well);
  theorems quantify over the oracles.
* `async` functions are embedded as pure functions; sleeps have no observable
  effect on state and are dropped.
* Rust string helpers (`to_lowercase`, `contains`, `ends_with`, `replace`,
  `u64::from_str`) are re-implemented over the character list of a `String` so
  that the kernel can evaluate them; `to_lowercase` models the ASCII case mapping
  (the only case mapping the claims exercise).
* Storage, for the processor-level claims, follows the in-memory
  `StateStorage` implementation (`src/services/storage/memory.rs`): operations
  always succeed, `load_*` signals absence. The fallible on-disk store is
  modelled separately for the storage claims, with an explicit fault-injection
  parameter describing at which system call an I/O error occurs.
-/

namespace ChannelBot

/-! ## String primitives (models of the Rust `str`/`String` methods used) -/

/-- Model of Rust `char::to_lowercase` restricted to ASCII letters. -/
def toLowerChar (c : Char) : Char :=
  if 65 ≤ c.toNat ∧ c.toNat ≤ 90 then Char.ofNat (c.toNat + 32) else c

/-- Model of Rust `str::to_lowercase`. -/
def toLowercase (s : String) : String := String.mk (s.data.map toLowerChar)

/-- Bool test: the first list is an initial segment of the second. -/
def chInitSeg : List Char → List Char → Bool
  | [], _ => true
  | _ :: _, [] => false
  | a :: as, b :: bs => a = b && chInitSeg as bs

/-- Bool test: `pat` occurs as a contiguous run inside `s`. -/
def chHasSub (s pat : List Char) : Bool :=
  chInitSeg pat s ||
    match s with
    | [] => false
    | _ :: t => chHasSub t pat

/-- Model of Rust `str::contains` (substring containment). -/
def strContains (s pat : String) : Bool := chHasSub s.data pat.data

/-- Model of Rust `str::ends_with`. -/
def strEndsWith (s suffixStr : String) : Bool :=
  chInitSeg suffixStr.data.reverse s.data.reverse

/-- Worker for `strReplace`; the fuel argument makes the recursion structural. -/
def chReplaceAllGo (pat rep : List Char) : Nat → List Char → List Char
  | 0, s => s
  | _ + 1, [] => []
  | fuel + 1, c :: rest =>
    if pat ≠ [] ∧ chInitSeg pat (c :: rest) then
      rep ++ chReplaceAllGo pat rep fuel (List.drop (pat.length - 1) rest)
    else
      c :: chReplaceAllGo pat rep fuel rest

/-- Model of Rust `str::replace`: replace every non-overlapping occurrence of
`pat` in `s` by `rep`, scanning left to right. -/
def strReplace (s pat rep : String) : String :=
  String.mk (chReplaceAllGo pat.data rep.data s.data.length s.data)

/-- Decimal digit value of a character, if any. -/
def parseDigit (c : Char) : Option Nat :=
  if 48 ≤ c.toNat ∧ c.toNat ≤ 57 then some (c.toNat - 48) else none

/-- Model of Rust `u64::from_str`: an optional leading `+`, then one or more
decimal digits, rejecting values that overflow 64 bits. -/
def parse_u64 (s : String) : Option Nat :=
  let chars := match s.data with
    | '+' :: rest => rest
    | l => l
  if chars.isEmpty then none
  else
    (chars.foldl (fun acc c => acc.bind (fun a => (parseDigit c).map (fun d => a * 10 + d)))
      (some 0)).bind (fun v => if v < 2 ^ 64 then some v else none)

/-! ## Data model (`track_request_processor.rs`, lines 13–224) -/

/-- Model of `AudioMetadata`: title, artist, album (all strings). -/
structure AudioMetadata where
  title : String
  artist : String
  album : String
deriving DecidableEq

/-- Model of `CreateRequestOptions`. -/
structure CreateRequestOptions where
  validate_metadata : Bool
deriving DecidableEq

/-- Model of `TrackRequestProcessingContext`: immutable for the life of a request. -/
structure TrackRequestProcessingContext where
  metadata : AudioMetadata
  options : CreateRequestOptions
  target_channel_id : Nat
deriving DecidableEq

/-- Model of `TrackRequestProcessingState`: the durable per-request pipeline state. -/
structure TrackRequestProcessingState where
  tried_topics : List Nat
  current_download_id : Option Nat
  current_torrent_data : Option (List Nat)
  current_torrent_id : Option Int
  path_to_downloaded_file : Option String
  radio_manager_track_id : Option Nat
  radio_manager_link_id : Option String
deriving DecidableEq

/-- Model of `TrackRequestProcessingState::default()`: empty list, all optionals absent. -/
def TrackRequestProcessingState.default : TrackRequestProcessingState :=
  ⟨[], none, none, none, none, none, none⟩

/-- Model of `TrackRequestProcessingStep`, in pipeline order. -/
inductive TrackRequestProcessingStep
  | SearchAudioAlbum
  | DownloadTorrentFile
  | DownloadAlbum
  | CheckDownloadStatus
  | UploadToRadioManager
  | AddToRadioManagerChannel
  | Finish
deriving DecidableEq

/-- Position of a step in pipeline order. -/
def stepIdx : TrackRequestProcessingStep → Nat
  | .SearchAudioAlbum => 0
  | .DownloadTorrentFile => 1
  | .DownloadAlbum => 2
  | .CheckDownloadStatus => 3
  | .UploadToRadioManager => 4
  | .AddToRadioManagerChannel => 5
  | .Finish => 6

/-- Model of `TrackRequestProcessingState::get_step` (lines 180–198): the ordered
if-chain projecting State to the next Step. -/
def TrackRequestProcessingState.get_step
    (s : TrackRequestProcessingState) : TrackRequestProcessingStep :=
  if s.current_download_id.isNone then .SearchAudioAlbum
  else if s.current_torrent_data.isNone then .DownloadTorrentFile
  else if s.current_torrent_id.isNone then .DownloadAlbum
  else if s.path_to_downloaded_file.isNone then .CheckDownloadStatus
  else if s.radio_manager_track_id.isNone then .UploadToRadioManager
  else if s.radio_manager_link_id.isNone then .AddToRadioManagerChannel
  else .Finish

/-- Model of `TrackRequestProcessingStatus`. -/
inductive TrackRequestProcessingStatus
  | Processing
  | NotFound
  | Failed
  | Finished
deriving DecidableEq

/-- A search result row: `TopicData`. -/
structure TopicData where
  topic_id : Nat
  download_id : Nat
  title : String
deriving DecidableEq

/-- Torrent status as reported by the torrent client. -/
inductive TorrentStatus
  | Downloading
  | Complete
deriving DecidableEq

/-- A torrent as reported by the torrent client. -/
structure Torrent where
  status : TorrentStatus
  files : List String
deriving DecidableEq

/-- Model of `ProcessRequestError` (lines 379–393); causes are opaque and dropped. -/
inductive ProcessRequestError
  | StateStorageError
  | SearchProviderError
  | DownloaderError
  | RadioManagerError
  | TorrentParserError
  | TrackNotFound
deriving DecidableEq

/-- The external adapters consumed by the processor, as pure oracles.
`get_files` stands for the bencode torrent parser
(`src/services/torrent_parser.rs`), whose output the handlers consume only as a
list of file paths. -/
structure Adapters where
  search_music : String → Except Unit (List TopicData)
  download_torrent : Nat → Except Unit (List Nat)
  get_files : List Nat → Except Unit (List String)
  add_torrent : List Nat → List Int → Except Unit Int
  get_torrent : Int → Except Unit Torrent
  upload_audio_track : Nat → String → Except Unit Nat
  add_track_to_channel_playlist : Nat → Nat → Nat → Except Unit String

/-! ## Claim C1: the step projection follows the §4.2 table -/

/-- The §4.2 projection table: ordered rows of (condition, step). -/
def step_condition_table (s : TrackRequestProcessingState) :
    List (Bool × TrackRequestProcessingStep) :=
  [(s.current_download_id.isNone, .SearchAudioAlbum),
   (s.current_torrent_data.isNone, .DownloadTorrentFile),
   (s.current_torrent_id.isNone, .DownloadAlbum),
   (s.path_to_downloaded_file.isNone, .CheckDownloadStatus),
   (s.radio_manager_track_id.isNone, .UploadToRadioManager),
   (s.radio_manager_link_id.isNone, .AddToRadioManagerChannel)]

/-- First row of the table whose condition holds, defaulting to the final
(else) row `Finish`. -/
def first_matching_step (rows : List (Bool × TrackRequestProcessingStep)) :
    TrackRequestProcessingStep :=
  match rows.find? (fun r => r.1) with
  | some r => r.2
  | none => .Finish

/-- C1: for every `TrackRequestProcessingState`, `get_step` returns exactly the
step of the first row of the §4.2 projection table whose condition holds
(`SearchAudioAlbum` if `current_download_id` is absent, else
`DownloadTorrentFile` if `current_torrent_data` is absent, else `DownloadAlbum`
if `current_torrent_id` is absent, else `CheckDownloadStatus` if
`path_to_downloaded_file` is absent, else `UploadToRadioManager` if
`radio_manager_track_id` is absent, else `AddToRadioManagerChannel` if
`radio_manager_link_id` is absent, else `Finish`); being a function, it returns
exactly one step. -/
theorem get_step_matches_projection_table (s : TrackRequestProcessingState) :
    s.get_step = first_matching_step (step_condition_table s) := by
  rcases s with ⟨tt, cdi, ctd, cti, pf, tid, lid⟩
  cases cdi <;> cases ctd <;> cases cti <;> cases pf <;> cases tid <;> cases lid <;> rfl

/-! ## Step handlers (`track_request_processor.rs`, lines 568–781)

Each handler models the corresponding `TrackRequestProcessor` method. A handler
returns `Option (Except ProcessRequestError TrackRequestProcessingState)`:
`none` models a Rust panic (`.expect(..)` on an absent field), `some (.error e)`
a returned error, `some (.ok s')` success with the possibly-updated state. -/

/-- The four query strings of `search_audio_album` (lines 575–580), in order. -/
def queries_to_try (ctx : TrackRequestProcessingContext) : List String :=
  [ctx.metadata.artist ++ " - " ++ ctx.metadata.album,
   ctx.metadata.artist ++ " дискография",
   ctx.metadata.artist ++ " discography",
   ctx.metadata.artist ++ " дискографія"]

/-- The `for query in queries_to_try` loop of `search_audio_album`
(lines 583–608). `tried` is the set snapshot taken at line 582. -/
def search_loop (ad : Adapters) (tried : List Nat) (s : TrackRequestProcessingState) :
    List String → Except ProcessRequestError TrackRequestProcessingState
  | [] => .error .TrackNotFound
  | q :: rest =>
    match ad.search_music q with
    | .error _ => .error .SearchProviderError
    | .ok results =>
      match results.filter (fun r => !(tried.contains r.topic_id)) with
      | [] => search_loop ad tried s rest
      | topic :: _ =>
        .ok { s with current_download_id := some topic.download_id,
                     tried_topics := s.tried_topics ++ [topic.topic_id] }

/-- Model of `TrackRequestProcessor::search_audio_album` (lines 568–616). -/
def search_audio_album (ad : Adapters) (ctx : TrackRequestProcessingContext)
    (s : TrackRequestProcessingState) :
    Except ProcessRequestError TrackRequestProcessingState :=
  search_loop ad s.tried_topics s (queries_to_try ctx)

/-- Model of `TrackRequestProcessor::download_torrent_file` (lines 618–646). -/
def download_torrent_file (ad : Adapters) (ctx : TrackRequestProcessingContext)
    (s : TrackRequestProcessingState) :
    Option (Except ProcessRequestError TrackRequestProcessingState) :=
  match s.current_download_id with
  | none => none
  | some download_id =>
    some (match ad.download_torrent download_id with
      | .error _ => .error .SearchProviderError
      | .ok torrent_data =>
        match ad.get_files torrent_data with
        | .error _ => .error .TorrentParserError
        | .ok files_in_torrent =>
          if files_in_torrent.any
              (fun f => strContains (toLowercase f) (toLowercase ctx.metadata.title)) then
            .ok { s with current_torrent_data := some torrent_data }
          else
            .ok { s with current_download_id := none })

/-- Model of `TrackRequestProcessor::download_album` (lines 648–680). -/
def download_album (ad : Adapters) (ctx : TrackRequestProcessingContext)
    (s : TrackRequestProcessingState) :
    Option (Except ProcessRequestError TrackRequestProcessingState) :=
  match s.current_torrent_data with
  | none => none
  | some torrent_data =>
    some (match ad.get_files torrent_data with
      | .error _ => .error .TorrentParserError
      | .ok files_in_torrent =>
        let track_title_lc := toLowercase ctx.metadata.title
        let selected_files :=
          ((files_in_torrent.enum.filter
            (fun p => strContains (toLowercase p.2) track_title_lc)).map
              (fun p => (p.1 : Int)))
        match ad.add_torrent torrent_data selected_files with
        | .error _ => .error .DownloaderError
        | .ok torrent_id => .ok { s with current_torrent_id := some torrent_id })

/-- Model of `TrackRequestProcessor::check_download_status` (lines 682–724). -/
def check_download_status (ad : Adapters) (ctx : TrackRequestProcessingContext)
    (s : TrackRequestProcessingState) :
    Option (Except ProcessRequestError TrackRequestProcessingState) :=
  match s.current_torrent_id with
  | none => none
  | some torrent_id =>
    some (match ad.get_torrent torrent_id with
      | .error _ => .error .DownloaderError
      | .ok torrent =>
        if torrent.status ≠ .Complete then
          .ok s
        else
          let title_lc := toLowercase ctx.metadata.title
          match torrent.files.find? (fun f => strContains (toLowercase f) title_lc) with
          | some file => .ok { s with path_to_downloaded_file := some file }
          | none =>
            .ok { s with current_download_id := none,
                         current_torrent_id := none,
                         current_torrent_data := none })

/-- Model of `TrackRequestProcessor::upload_to_radio_manager` (lines 726–753);
`dd` is the processor field `download_directory`. -/
def upload_to_radio_manager (ad : Adapters) (dd : String) (user_id : Nat)
    (s : TrackRequestProcessingState) :
    Option (Except ProcessRequestError TrackRequestProcessingState) :=
  match s.path_to_downloaded_file with
  | none => none
  | some path =>
    let full_path_to_file := dd ++ "/" ++ path
    some (match ad.upload_audio_track user_id full_path_to_file with
      | .error _ => .error .RadioManagerError
      | .ok track_id => .ok { s with radio_manager_track_id := some track_id })

/-- Model of `TrackRequestProcessor::add_to_radio_manager_channel` (lines 755–780). -/
def add_to_radio_manager_channel (ad : Adapters) (user_id : Nat)
    (ctx : TrackRequestProcessingContext) (s : TrackRequestProcessingState) :
    Option (Except ProcessRequestError TrackRequestProcessingState) :=
  match s.radio_manager_track_id with
  | none => none
  | some track_id =>
    some (match ad.add_track_to_channel_playlist user_id track_id ctx.target_channel_id with
      | .error _ => .error .RadioManagerError
      | .ok link_id => .ok { s with radio_manager_link_id := some link_id })

/-- Model of `TrackRequestProcessor::handle_next_step` (lines 530–566): dispatch on
`state.get_step()`. -/
def handle_next_step (ad : Adapters) (dd : String) (user_id : Nat)
    (ctx : TrackRequestProcessingContext) (s : TrackRequestProcessingState) :
    Option (Except ProcessRequestError TrackRequestProcessingState) :=
  match s.get_step with
  | .SearchAudioAlbum => some (search_audio_album ad ctx s)
  | .DownloadTorrentFile => download_torrent_file ad ctx s
  | .DownloadAlbum => download_album ad ctx s
  | .CheckDownloadStatus => check_download_status ad ctx s
  | .UploadToRadioManager => upload_to_radio_manager ad dd user_id s
  | .AddToRadioManagerChannel => add_to_radio_manager_channel ad user_id ctx s
  | .Finish => some (.ok s)

/-! ## State storage and request processor

For the processor-level claims the store follows the in-memory
`StateStorage` implementation (`src/services/storage/memory.rs`): three maps
keyed by `(user_id, request_id)`, writes always succeed, loads signal absence.
Maps are association lists with replace-on-put semantics. -/

/-- Look up a key in an association list. -/
def mapGet {V : Type} (m : List ((Nat × Nat) × V)) (k : Nat × Nat) : Option V :=
  (m.find? (fun p => p.1 = k)).map (fun p => p.2)

/-- Create-or-replace a binding. -/
def mapPut {V : Type} (m : List ((Nat × Nat) × V)) (k : Nat × Nat) (v : V) :
    List ((Nat × Nat) × V) :=
  (k, v) :: m.filter (fun p => p.1 ≠ k)

/-- Remove a binding (idempotent). -/
def mapDel {V : Type} (m : List ((Nat × Nat) × V)) (k : Nat × Nat) :
    List ((Nat × Nat) × V) :=
  m.filter (fun p => p.1 ≠ k)

/-- The state store: Context, State and Status areas per `(user, request)`. -/
structure StateStorage where
  contexts : List ((Nat × Nat) × TrackRequestProcessingContext)
  states : List ((Nat × Nat) × TrackRequestProcessingState)
  statuses : List ((Nat × Nat) × TrackRequestProcessingStatus)
deriving DecidableEq

/-- The empty store. -/
def StateStorage.empty : StateStorage := ⟨[], [], []⟩

/-- Model of `TrackRequestProcessor::create_request` (lines 417–451). The freshly
generated UUID (`Uuid::new_v4`, line 430) is supplied as `fresh`. Returns the
updated store and the returned `RequestId`. -/
def create_request (store : StateStorage) (user_id fresh : Nat)
    (track_metadata : AudioMetadata) (options : CreateRequestOptions)
    (target_channel_id : Nat) : StateStorage × Nat :=
  let ctx : TrackRequestProcessingContext := ⟨track_metadata, options, target_channel_id⟩
  let state := TrackRequestProcessingState.default
  let store := { store with contexts := mapPut store.contexts (user_id, fresh) ctx }
  let store := { store with states := mapPut store.states (user_id, fresh) state }
  (store, fresh)

/-- The status written for a failed step (lines 479–498): `NotFound` for
`TrackNotFound`, `Failed` for every other error. -/
def classify_error : ProcessRequestError → TrackRequestProcessingStatus
  | .TrackNotFound => .NotFound
  | _ => .Failed

/-- The `while !matches!(state.get_step(), Finish)` loop of `process_request`
(lines 474–506). `fuel` bounds the number of iterations (the source loop may
run unboundedly while polling); `none` models a panic or fuel exhaustion.
On a handler error the matching status is written and the error returned
without persisting the in-memory state; on a successful step the state is
persisted and the loop continues. -/
def processLoop (ad : Adapters) (dd : String) (user_id request_id : Nat)
    (ctx : TrackRequestProcessingContext) :
    Nat → TrackRequestProcessingState → StateStorage →
    Option (Except ProcessRequestError Unit × StateStorage)
  | 0, s, store =>
    if s.get_step = .Finish then some (.ok (), store) else none
  | fuel + 1, s, store =>
    if s.get_step = .Finish then some (.ok (), store)
    else
      match handle_next_step ad dd user_id ctx s with
      | none => none
      | some (.error e) =>
        some (.error e,
          { store with statuses := (mapPut store.statuses (user_id, request_id)
              (classify_error e)) })
      | some (.ok s') =>
        processLoop ad dd user_id request_id ctx fuel s'
          { store with states := mapPut store.states (user_id, request_id) s' }

/-- Model of `TrackRequestProcessor::process_request` (lines 453–519): load Context and
State (absence is a `StateStorageError`), write `Status = Processing`, run the
loop; on successful exit write `Status = Finished`, delete State, delete
Context. -/
def process_request (ad : Adapters) (dd : String) (user_id request_id : Nat)
    (fuel : Nat) (store : StateStorage) :
    Option (Except ProcessRequestError Unit × StateStorage) :=
  match mapGet store.contexts (user_id, request_id) with
  | none => some (.error .StateStorageError, store)
  | some ctx =>
    match mapGet store.states (user_id, request_id) with
    | none => some (.error .StateStorageError, store)
    | some s =>
      let store :=
        { store with statuses := mapPut store.statuses (user_id, request_id) .Processing }
      match processLoop ad dd user_id request_id ctx fuel s store with
      | none => none
      | some (.error e, store') => some (.error e, store')
      | some (.ok _, store') =>
        let store' :=
          { store' with statuses := mapPut store'.statuses (user_id, request_id) .Finished }
        let store' :=
          { store' with states := mapDel store'.states (user_id, request_id) }
        let store' :=
          { store' with contexts := mapDel store'.contexts (user_id, request_id) }
        some (.ok (), store')

/-! ## Helper lemmas about the association-list maps -/

theorem mapGet_mapPut_same {V : Type} (m : List ((Nat × Nat) × V)) (k : Nat × Nat) (v : V) :
    mapGet (mapPut m k v) k = some v := by
  simp [mapGet, mapPut, List.find?]

theorem mapGet_mapDel_same {V : Type} (m : List ((Nat × Nat) × V)) (k : Nat × Nat) :
    mapGet (mapDel m k) k = none := by
  induction m with
  | nil => rfl
  | cons a t ih =>
    by_cases h : a.1 = k
    · simpa [mapDel, List.filter, h] using ih
    · simpa [mapDel, mapGet, List.filter, List.find?, h] using ih

/-! ## Helper lemmas about the step projection -/

theorem get_step_inv_search {s : TrackRequestProcessingState}
    (h : s.get_step = .SearchAudioAlbum) : s.current_download_id = none := by
  unfold TrackRequestProcessingState.get_step at h
  split_ifs at h with h1 h2 h3 h4 h5 h6 <;>
    simp_all [Option.isNone_iff_eq_none]

theorem get_step_inv_dtf {s : TrackRequestProcessingState}
    (h : s.get_step = .DownloadTorrentFile) :
    s.current_download_id ≠ none ∧ s.current_torrent_data = none := by
  unfold TrackRequestProcessingState.get_step at h
  split_ifs at h with h1 h2 h3 h4 h5 h6 <;>
    simp_all [Option.isNone_iff_eq_none]

theorem get_step_inv_da {s : TrackRequestProcessingState}
    (h : s.get_step = .DownloadAlbum) :
    s.current_download_id ≠ none ∧ s.current_torrent_data ≠ none ∧
      s.current_torrent_id = none := by
  unfold TrackRequestProcessingState.get_step at h
  split_ifs at h with h1 h2 h3 h4 h5 h6 <;>
    simp_all [Option.isNone_iff_eq_none]

theorem get_step_inv_cds {s : TrackRequestProcessingState}
    (h : s.get_step = .CheckDownloadStatus) :
    s.current_download_id ≠ none ∧ s.current_torrent_data ≠ none ∧
      s.current_torrent_id ≠ none ∧ s.path_to_downloaded_file = none := by
  unfold TrackRequestProcessingState.get_step at h
  split_ifs at h with h1 h2 h3 h4 h5 h6 <;>
    simp_all [Option.isNone_iff_eq_none]

theorem get_step_inv_upload {s : TrackRequestProcessingState}
    (h : s.get_step = .UploadToRadioManager) :
    s.current_download_id ≠ none ∧ s.current_torrent_data ≠ none ∧
      s.current_torrent_id ≠ none ∧ s.path_to_downloaded_file ≠ none ∧
      s.radio_manager_track_id = none := by
  unfold TrackRequestProcessingState.get_step at h
  split_ifs at h with h1 h2 h3 h4 h5 h6 <;>
    simp_all [Option.isNone_iff_eq_none]

theorem get_step_inv_add {s : TrackRequestProcessingState}
    (h : s.get_step = .AddToRadioManagerChannel) :
    s.current_download_id ≠ none ∧ s.current_torrent_data ≠ none ∧
      s.current_torrent_id ≠ none ∧ s.path_to_downloaded_file ≠ none ∧
      s.radio_manager_track_id ≠ none ∧ s.radio_manager_link_id = none := by
  unfold TrackRequestProcessingState.get_step at h
  split_ifs at h with h1 h2 h3 h4 h5 h6 <;>
    simp_all [Option.isNone_iff_eq_none]

theorem stepIdx_ge_one {s : TrackRequestProcessingState}
    (h : s.current_download_id ≠ none) : 1 ≤ stepIdx s.get_step := by
  unfold TrackRequestProcessingState.get_step
  split_ifs <;> simp_all [Option.isNone_iff_eq_none, stepIdx]

theorem stepIdx_ge_two {s : TrackRequestProcessingState}
    (h1 : s.current_download_id ≠ none) (h2 : s.current_torrent_data ≠ none) :
    2 ≤ stepIdx s.get_step := by
  unfold TrackRequestProcessingState.get_step
  split_ifs <;> simp_all [Option.isNone_iff_eq_none, stepIdx]

theorem stepIdx_ge_three {s : TrackRequestProcessingState}
    (h1 : s.current_download_id ≠ none) (h2 : s.current_torrent_data ≠ none)
    (h3 : s.current_torrent_id ≠ none) : 3 ≤ stepIdx s.get_step := by
  unfold TrackRequestProcessingState.get_step
  split_ifs <;> simp_all [Option.isNone_iff_eq_none, stepIdx]

theorem stepIdx_ge_four {s : TrackRequestProcessingState}
    (h1 : s.current_download_id ≠ none) (h2 : s.current_torrent_data ≠ none)
    (h3 : s.current_torrent_id ≠ none) (h4 : s.path_to_downloaded_file ≠ none) :
    4 ≤ stepIdx s.get_step := by
  unfold TrackRequestProcessingState.get_step
  split_ifs <;> simp_all [Option.isNone_iff_eq_none, stepIdx]

theorem stepIdx_ge_five {s : TrackRequestProcessingState}
    (h1 : s.current_download_id ≠ none) (h2 : s.current_torrent_data ≠ none)
    (h3 : s.current_torrent_id ≠ none) (h4 : s.path_to_downloaded_file ≠ none)
    (h5 : s.radio_manager_track_id ≠ none) : 5 ≤ stepIdx s.get_step := by
  unfold TrackRequestProcessingState.get_step
  split_ifs <;> simp_all [Option.isNone_iff_eq_none, stepIdx]

theorem get_step_search_of_none {s : TrackRequestProcessingState}
    (h : s.current_download_id = none) : s.get_step = .SearchAudioAlbum := by
  simp [TrackRequestProcessingState.get_step, h]

theorem get_step_finish_of_all_some {s : TrackRequestProcessingState}
    (h1 : s.current_download_id ≠ none) (h2 : s.current_torrent_data ≠ none)
    (h3 : s.current_torrent_id ≠ none) (h4 : s.path_to_downloaded_file ≠ none)
    (h5 : s.radio_manager_track_id ≠ none) (h6 : s.radio_manager_link_id ≠ none) :
    s.get_step = .Finish := by
  unfold TrackRequestProcessingState.get_step
  split_ifs <;> simp_all [Option.isNone_iff_eq_none]

/-! ## Helper lemmas about the handlers: the shape of a successful result -/

theorem search_loop_ok {ad : Adapters} {tried : List Nat}
    {s s' : TrackRequestProcessingState} {qs : List String}
    (h : search_loop ad tried s qs = .ok s') :
    ∃ t : TopicData, tried.contains t.topic_id = false ∧
      s' = { s with current_download_id := some t.download_id,
                    tried_topics := s.tried_topics ++ [t.topic_id] } := by
  induction qs with
  | nil => simp [search_loop] at h
  | cons q rest ih =>
    unfold search_loop at h
    split at h
    · simp at h
    · split at h
      · exact ih h
      · rename_i results heqsm w topic l hf
        simp only [Except.ok.injEq] at h
        refine ⟨topic, ?_, h.symm⟩
        have hmem : topic ∈ results.filter (fun r => !(tried.contains r.topic_id)) := by
          rw [hf]; exact List.mem_cons_self _ _
        have hp := (List.mem_filter.mp hmem).2
        simpa using hp

theorem search_audio_album_ok {ad : Adapters} {ctx : TrackRequestProcessingContext}
    {s s' : TrackRequestProcessingState}
    (h : search_audio_album ad ctx s = .ok s') :
    ∃ t : TopicData, s.tried_topics.contains t.topic_id = false ∧
      s' = { s with current_download_id := some t.download_id,
                    tried_topics := s.tried_topics ++ [t.topic_id] } :=
  search_loop_ok h

theorem download_torrent_file_ok {ad : Adapters} {ctx : TrackRequestProcessingContext}
    {s s' : TrackRequestProcessingState}
    (h : download_torrent_file ad ctx s = some (.ok s')) :
    (∃ d, s' = { s with current_torrent_data := some d }) ∨
      s' = { s with current_download_id := none } := by
  unfold download_torrent_file at h
  split at h
  · simp at h
  · simp only [Option.some.injEq] at h
    split at h
    · simp at h
    · split at h
      · simp at h
      · split at h
        · simp only [Except.ok.injEq] at h
          exact Or.inl ⟨_, h.symm⟩
        · simp only [Except.ok.injEq] at h
          exact Or.inr h.symm

theorem download_album_ok {ad : Adapters} {ctx : TrackRequestProcessingContext}
    {s s' : TrackRequestProcessingState}
    (h : download_album ad ctx s = some (.ok s')) :
    ∃ tid, s' = { s with current_torrent_id := some tid } := by
  unfold download_album at h
  split at h
  · simp at h
  · simp only [Option.some.injEq] at h
    split at h
    · simp at h
    · split at h
      · simp at h
      · simp only [Except.ok.injEq] at h
        exact ⟨_, h.symm⟩

theorem check_download_status_ok {ad : Adapters} {ctx : TrackRequestProcessingContext}
    {s s' : TrackRequestProcessingState}
    (h : check_download_status ad ctx s = some (.ok s')) :
    s' = s ∨ (∃ f, s' = { s with path_to_downloaded_file := some f }) ∨
      s' = { s with current_download_id := none, current_torrent_id := none,
                    current_torrent_data := none } := by
  unfold check_download_status at h
  split at h
  · simp at h
  · simp only [Option.some.injEq] at h
    split at h
    · simp at h
    · split at h
      · simp only [Except.ok.injEq] at h
        exact Or.inl h.symm
      · split at h
        · simp only [Except.ok.injEq] at h
          exact Or.inr (Or.inl ⟨_, h.symm⟩)
        · simp only [Except.ok.injEq] at h
          exact Or.inr (Or.inr h.symm)

theorem upload_to_radio_manager_ok {ad : Adapters} {dd : String} {uid : Nat}
    {s s' : TrackRequestProcessingState}
    (h : upload_to_radio_manager ad dd uid s = some (.ok s')) :
    ∃ t, s' = { s with radio_manager_track_id := some t } := by
  unfold upload_to_radio_manager at h
  split at h
  · simp at h
  · simp only [Option.some.injEq] at h
    split at h
    · simp at h
    · simp only [Except.ok.injEq] at h
      exact ⟨_, h.symm⟩

theorem add_to_radio_manager_channel_ok {ad : Adapters} {uid : Nat}
    {ctx : TrackRequestProcessingContext} {s s' : TrackRequestProcessingState}
    (h : add_to_radio_manager_channel ad uid ctx s = some (.ok s')) :
    ∃ l, s' = { s with radio_manager_link_id := some l } := by
  unfold add_to_radio_manager_channel at h
  split at h
  · simp at h
  · simp only [Option.some.injEq] at h
    split at h
    · simp at h
    · simp only [Except.ok.injEq] at h
      exact ⟨_, h.symm⟩

/-! ## Concrete fixtures used by witnesses and counterexamples -/

/-- A concrete request context: track "t" by "a" from album "b", channel 3. -/
def ctx0 : TrackRequestProcessingContext := ⟨⟨"t", "a", "b"⟩, ⟨false⟩, 3⟩

/-- Adapters on which every call succeeds and the pipeline runs straight
through: one search hit, a torrent containing the file "t", immediate
completion. -/
def adHappy : Adapters :=
  ⟨fun _ => .ok [⟨1, 1, "x"⟩],
   fun _ => .ok [0],
   fun _ => .ok ["t"],
   fun _ _ => .ok 5,
   fun _ => .ok ⟨.Complete, ["t"]⟩,
   fun _ _ => .ok 9,
   fun _ _ _ => .ok "L"⟩

/-- Adapters on which every call fails. -/
def adFail : Adapters :=
  ⟨fun _ => .error (),
   fun _ => .error (),
   fun _ => .error (),
   fun _ _ => .error (),
   fun _ => .error (),
   fun _ _ => .error (),
   fun _ _ _ => .error ()⟩

/-- A store holding exactly the context and fresh state of request (1, 2). -/
def store0 : StateStorage :=
  ⟨[((1, 2), ctx0)], [((1, 2), TrackRequestProcessingState.default)], []⟩

/-! ## Claim C2 (corrected): what `create_request` writes -/

/-- C2 counterexample: after a successful `create_request` (here on the empty
store, for user 1, fresh id 2) the status area holds NO entry for the request,
refuting the claim that `create_request` writes `Status = Processing`. -/
theorem create_request_no_status_counterexample :
    mapGet (create_request StateStorage.empty 1 2 ⟨"t", "a", "b"⟩ ⟨false⟩ 3).1.statuses
        (1, 2) ≠
      some TrackRequestProcessingStatus.Processing := by
  decide

/-- C2 (amended): a successful `create_request` returns the freshly generated
id, writes the Context assembled from its arguments and the default (empty)
State for `(user, request)`, and leaves the status area untouched — no
`Status = Processing` is written (that happens when `process_request` starts)
and no pipeline step runs (the definition consumes no adapters). -/
theorem create_request_behavior (store : StateStorage) (user_id fresh : Nat)
    (md : AudioMetadata) (opts : CreateRequestOptions) (channel_id : Nat) :
    (create_request store user_id fresh md opts channel_id).2 = fresh ∧
    mapGet (create_request store user_id fresh md opts channel_id).1.contexts
        (user_id, fresh) = some ⟨md, opts, channel_id⟩ ∧
    mapGet (create_request store user_id fresh md opts channel_id).1.states
        (user_id, fresh) = some TrackRequestProcessingState.default ∧
    (create_request store user_id fresh md opts channel_id).1.statuses = store.statuses := by
  refine ⟨rfl, ?_, ?_, rfl⟩
  · exact mapGet_mapPut_same _ _ _
  · exact mapGet_mapPut_same _ _ _

/-! ## Claim C3: error classification and no persistence on failure -/

/-- C3: whenever the handler invoked by the processing loop on the current
state returns an error `e`, the loop writes `Status = NotFound` if `e` is
`TrackNotFound` and `Status = Failed` for every other error kind, returns `e`
to the caller, does not persist any state (the states area is exactly as at
loop entry — in particular the in-memory state mutated by the failing handler
is not written), and deletes neither Context nor State. -/
theorem process_loop_error_classification
    (ad : Adapters) (dd : String) (user_id request_id : Nat)
    (ctx : TrackRequestProcessingContext) (s : TrackRequestProcessingState)
    (store : StateStorage) (fuel : Nat) (e : ProcessRequestError)
    (h : handle_next_step ad dd user_id ctx s = some (Except.error e)) :
    ∃ store',
      processLoop ad dd user_id request_id ctx (fuel + 1) s store =
          some (Except.error e, store') ∧
      mapGet store'.statuses (user_id, request_id) =
        some (if e = ProcessRequestError.TrackNotFound
              then TrackRequestProcessingStatus.NotFound
              else TrackRequestProcessingStatus.Failed) ∧
      store'.states = store.states ∧
      store'.contexts = store.contexts := by
  have hfin : ¬ s.get_step = .Finish := by
    intro hf
    unfold handle_next_step at h
    rw [hf] at h
    simp at h
  refine ⟨{ store with statuses := (mapPut store.statuses (user_id, request_id)
      (classify_error e)) }, ?_, ?_, rfl, rfl⟩
  · unfold processLoop
    rw [if_neg hfin, h]
  · rw [show ({ store with statuses := (mapPut store.statuses (user_id, request_id)
        (classify_error e)) } : StateStorage).statuses =
        mapPut store.statuses (user_id, request_id) (classify_error e) from rfl,
      mapGet_mapPut_same]
    cases e <;> simp [classify_error]

/-- C3 witness: with adapters on which every call fails, the very first step
(`SearchAudioAlbum` on the default state) fails with `SearchProviderError` and
the loop behaves as stated. -/
theorem process_loop_error_classification_witness :
    ∃ store',
      processLoop adFail "dl" 1 2 ctx0 (0 + 1) TrackRequestProcessingState.default
          StateStorage.empty =
        some (Except.error ProcessRequestError.SearchProviderError, store') ∧
      mapGet store'.statuses (1, 2) =
        some (if ProcessRequestError.SearchProviderError =
                  ProcessRequestError.TrackNotFound
              then TrackRequestProcessingStatus.NotFound
              else TrackRequestProcessingStatus.Failed) ∧
      store'.states = StateStorage.empty.states ∧
      store'.contexts = StateStorage.empty.contexts :=
  process_loop_error_classification adFail "dl" 1 2 ctx0
    TrackRequestProcessingState.default StateStorage.empty 0
    ProcessRequestError.SearchProviderError (by rfl)

/-! ## Claim C4: successful completion cleans up the store -/

/-- C4: if `process_request` runs to the `Finish` step and returns success,
then afterwards the store holds `Status = Finished` for that request and
contains neither its Context nor its State. -/
theorem process_request_finish_cleanup
    (ad : Adapters) (dd : String) (user_id request_id fuel : Nat)
    (store store' : StateStorage)
    (h : process_request ad dd user_id request_id fuel store =
      some (Except.ok (), store')) :
    mapGet store'.statuses (user_id, request_id) =
        some TrackRequestProcessingStatus.Finished ∧
    mapGet store'.states (user_id, request_id) = none ∧
    mapGet store'.contexts (user_id, request_id) = none := by
  unfold process_request at h
  split at h
  · simp at h
  · split at h
    · simp at h
    · simp only [] at h
      split at h
      · simp at h
      · simp at h
      · simp only [Option.some.injEq, Prod.mk.injEq] at h
        obtain ⟨-, h2⟩ := h
        subst h2
        exact ⟨mapGet_mapPut_same _ _ _, mapGet_mapDel_same _ _, mapGet_mapDel_same _ _⟩

/-- The store produced by the happy-path run used as the C4 witness. -/
def c4_store : StateStorage :=
  match process_request adHappy "dl" 1 2 10 store0 with
  | some (_, st) => st
  | none => StateStorage.empty

/-- C4 witness: the happy-path run on `adHappy` finishes, and the final store
holds `Status = Finished` and neither Context nor State for request (1, 2). -/
theorem process_request_finish_cleanup_witness :
    mapGet c4_store.statuses (1, 2) = some TrackRequestProcessingStatus.Finished ∧
    mapGet c4_store.states (1, 2) = none ∧
    mapGet c4_store.contexts (1, 2) = none :=
  process_request_finish_cleanup adHappy "dl" 1 2 10 store0 c4_store (by rfl)

/-! ## Claim C5 (corrected): how handlers move the step projection -/

/-- Adapters whose torrent descriptor does not contain the requested title
("zzz" does not contain "t"), so `download_torrent_file` rejects the candidate
and clears `current_download_id`. -/
def adReject : Adapters :=
  ⟨fun _ => .ok [],
   fun _ => .ok [0],
   fun _ => .ok ["zzz"],
   fun _ _ => .error (),
   fun _ => .error (),
   fun _ _ => .error (),
   fun _ _ _ => .error ()⟩

/-- The state at step `DownloadTorrentFile`: a candidate was chosen. -/
def sCandidate : TrackRequestProcessingState := ⟨[1], some 1, none, none, none, none, none⟩

/-- The state `download_torrent_file` produces when it rejects the candidate. -/
def sRejected : TrackRequestProcessingState := ⟨[1], none, none, none, none, none, none⟩

/-- C5 counterexample: on candidate rejection the `DownloadTorrentFile`
handler succeeds (no error) yet the step projection strictly DECREASES — from
`DownloadTorrentFile` back to `SearchAudioAlbum` — so it is neither strictly
greater nor unchanged, refuting the trichotomy stated by the claim. -/
theorem handler_step_decrease_counterexample :
    handle_next_step adReject "dl" 1 ctx0 sCandidate = some (Except.ok sRejected) ∧
    sRejected.get_step ≠ sCandidate.get_step ∧
    stepIdx sRejected.get_step < stepIdx sCandidate.get_step :=
  ⟨rfl, by decide, by decide⟩

/-- C5 (amended): for every context, state and adapter behaviour, a step
handler invoked through the dispatcher either (a) leaves `get_step` strictly
greater than before, (b) leaves it unchanged, (c) moves it back to
`SearchAudioAlbum` when a candidate is rejected (backtracking), or (d) returns
an error (the case `handle_next_step ≠ some (.ok s')`, about which nothing is
asserted). -/
theorem handler_step_monotone_or_backtracks
    (ad : Adapters) (dd : String) (user_id : Nat)
    (ctx : TrackRequestProcessingContext) (s s' : TrackRequestProcessingState)
    (h : handle_next_step ad dd user_id ctx s = some (Except.ok s')) :
    stepIdx s.get_step < stepIdx s'.get_step ∨ s'.get_step = s.get_step ∨
      s'.get_step = .SearchAudioAlbum := by
  unfold handle_next_step at h
  split at h <;> rename_i hstep
  · -- SearchAudioAlbum
    simp only [Option.some.injEq] at h
    obtain ⟨t, hnc, rfl⟩ := search_audio_album_ok h
    left
    have h1 := stepIdx_ge_one
      (s := { s with current_download_id := some t.download_id,
                     tried_topics := s.tried_topics ++ [t.topic_id] }) (by simp)
    rw [hstep, show stepIdx TrackRequestProcessingStep.SearchAudioAlbum = 0 from rfl]
    omega
  · -- DownloadTorrentFile
    obtain ⟨hd, hdata⟩ := get_step_inv_dtf hstep
    rcases download_torrent_file_ok h with ⟨d, rfl⟩ | rfl
    · left
      have h2 := stepIdx_ge_two
        (s := { s with current_torrent_data := some d }) (by simpa using hd) (by simp)
      rw [hstep, show stepIdx TrackRequestProcessingStep.DownloadTorrentFile = 1 from rfl]
      omega
    · right; right
      exact get_step_search_of_none (by simp)
  · -- DownloadAlbum
    obtain ⟨hd, hdata, hid⟩ := get_step_inv_da hstep
    obtain ⟨tid, rfl⟩ := download_album_ok h
    left
    have h3 := stepIdx_ge_three
      (s := { s with current_torrent_id := some tid })
      (by simpa using hd) (by simpa using hdata) (by simp)
    rw [hstep, show stepIdx TrackRequestProcessingStep.DownloadAlbum = 2 from rfl]
    omega
  · -- CheckDownloadStatus
    obtain ⟨hd, hdata, hid, hpath⟩ := get_step_inv_cds hstep
    rcases check_download_status_ok h with rfl | ⟨f, rfl⟩ | rfl
    · right; left; rfl
    · left
      have h4 := stepIdx_ge_four
        (s := { s with path_to_downloaded_file := some f })
        (by simpa using hd) (by simpa using hdata) (by simpa using hid) (by simp)
      rw [hstep, show stepIdx TrackRequestProcessingStep.CheckDownloadStatus = 3 from rfl]
      omega
    · right; right
      exact get_step_search_of_none (by simp)
  · -- UploadToRadioManager
    obtain ⟨hd, hdata, hid, hpath, htrack⟩ := get_step_inv_upload hstep
    obtain ⟨t, rfl⟩ := upload_to_radio_manager_ok h
    left
    have h5 := stepIdx_ge_five
      (s := { s with radio_manager_track_id := some t })
      (by simpa using hd) (by simpa using hdata) (by simpa using hid)
      (by simpa using hpath) (by simp)
    rw [hstep, show stepIdx TrackRequestProcessingStep.UploadToRadioManager = 4 from rfl]
    omega
  · -- AddToRadioManagerChannel
    obtain ⟨hd, hdata, hid, hpath, htrack, hlink⟩ := get_step_inv_add hstep
    obtain ⟨l, rfl⟩ := add_to_radio_manager_channel_ok h
    left
    have h6 := get_step_finish_of_all_some
      (s := { s with radio_manager_link_id := some l })
      (by simpa using hd) (by simpa using hdata) (by simpa using hid)
      (by simpa using hpath) (by simpa using htrack) (by simp)
    rw [hstep, h6]
    simp [stepIdx]
  · -- Finish
    simp only [Option.some.injEq, Except.ok.injEq] at h
    subst h
    right; left; rfl

/-- The state after the first successful `SearchAudioAlbum` step on `adHappy`
from the default state. -/
def sAfterSearch : TrackRequestProcessingState := ⟨[1], some 1, none, none, none, none, none⟩

/-- C5 witness: a successful `SearchAudioAlbum` step advances the projection
(first disjunct holds: `SearchAudioAlbum` to `DownloadTorrentFile`). -/
theorem handler_step_monotone_or_backtracks_witness :
    stepIdx TrackRequestProcessingState.default.get_step < stepIdx sAfterSearch.get_step ∨
      sAfterSearch.get_step = TrackRequestProcessingState.default.get_step ∨
      sAfterSearch.get_step = .SearchAudioAlbum :=
  handler_step_monotone_or_backtracks adHappy "dl" 1 ctx0
    TrackRequestProcessingState.default sAfterSearch (by rfl)

/-! ## Claim C6: the SearchAudioAlbum handler, as the spec words it -/

/-- The four query strings exactly as the claim lists them:
"{artist} - {album}", "{artist} дискография", "{artist} discography",
"{artist} дискографія", in that order. -/
def search_queries_per_spec (ctx : TrackRequestProcessingContext) : List String :=
  [ctx.metadata.artist ++ " - " ++ ctx.metadata.album,
   ctx.metadata.artist ++ " дискография",
   ctx.metadata.artist ++ " discography",
   ctx.metadata.artist ++ " дискографія"]

/-- Per the claim: discard results whose `topic_id` is already in
`tried_topics`, then take the first remaining result, if any. -/
def first_new_result (tried : List Nat) (results : List TopicData) : Option TopicData :=
  (results.filter (fun r => decide (r.topic_id ∉ tried))).head?

/-- The description of the handler given by the claim, query by query: on the first query
with a remaining result take it, append its `topic_id` to `tried_topics`, set
`current_download_id` to its `download_id` and succeed; if every query yields
no new result, return `TrackNotFound`. A provider failure propagates as
`SearchProviderError` (the claim is silent on this case; the behaviour here
matches the `?` propagation in the code). -/
def search_spec_go (ad : Adapters) (tried : List Nat) (s : TrackRequestProcessingState) :
    List String → Except ProcessRequestError TrackRequestProcessingState
  | [] => .error .TrackNotFound
  | q :: qs =>
    match ad.search_music q with
    | .error _ => .error .SearchProviderError
    | .ok results =>
      match first_new_result tried results with
      | some t =>
        .ok { s with tried_topics := s.tried_topics ++ [t.topic_id],
                     current_download_id := some t.download_id }
      | none => search_spec_go ad tried s qs

/-- The SearchAudioAlbum handler as described by the claim (§4.2.1). -/
def search_audio_album_per_spec (ad : Adapters) (ctx : TrackRequestProcessingContext)
    (s : TrackRequestProcessingState) :
    Except ProcessRequestError TrackRequestProcessingState :=
  search_spec_go ad s.tried_topics s (search_queries_per_spec ctx)

theorem search_filter_pred_eq (tried : List Nat) (results : List TopicData) :
    results.filter (fun r => !(tried.contains r.topic_id)) =
      results.filter (fun r => decide (r.topic_id ∉ tried)) := by
  congr 1
  funext r
  simp [List.elem_iff]

theorem search_loop_eq_spec (ad : Adapters) (tried : List Nat)
    (s : TrackRequestProcessingState) (qs : List String) :
    search_loop ad tried s qs = search_spec_go ad tried s qs := by
  induction qs with
  | nil => rfl
  | cons q rest ih =>
    unfold search_loop search_spec_go
    split
    · rfl
    · rename_i results heq
      unfold first_new_result
      rw [← search_filter_pred_eq]
      cases results.filter (fun r => !(tried.contains r.topic_id)) with
      | nil => exact ih
      | cons t l => rfl

/-- C6: the source handler `search_audio_album` coincides, for every adapter
behaviour, context and state, with the handler described by the claim: it
tries exactly the queries "{artist} - {album}", "{artist} дискография",
"{artist} discography", "{artist} дискографія" in that order, discards results
whose `topic_id` is already in `tried_topics`, takes the first remaining
result of the first query that has one (appending its `topic_id`, setting
`current_download_id`, succeeding), and returns `TrackNotFound` when every
query yields no new result. -/
theorem search_audio_album_matches_spec (ad : Adapters)
    (ctx : TrackRequestProcessingContext) (s : TrackRequestProcessingState) :
    search_audio_album ad ctx s = search_audio_album_per_spec ad ctx s :=
  search_loop_eq_spec ad s.tried_topics s (queries_to_try ctx)

/-! ## Claim C7: frame of the CheckDownloadStatus handler -/

/-- C7: when `get_torrent` reports a status other than `Complete` the handler
returns success with the state completely unchanged; when it reports
`Complete` and no reported file name contains the track title
case-insensitively, the handler clears exactly `current_download_id`,
`current_torrent_id` and `current_torrent_data`, leaving every other state
field (in particular `tried_topics`) unchanged. -/
theorem check_download_status_frame
    (ad : Adapters) (ctx : TrackRequestProcessingContext)
    (s : TrackRequestProcessingState) (tid : Int) (torrent : Torrent)
    (h1 : s.current_torrent_id = some tid)
    (h2 : ad.get_torrent tid = .ok torrent) :
    (torrent.status ≠ .Complete →
      check_download_status ad ctx s = some (.ok s)) ∧
    (torrent.status = .Complete →
      (∀ f ∈ torrent.files,
        strContains (toLowercase f) (toLowercase ctx.metadata.title) = false) →
      check_download_status ad ctx s =
        some (.ok { s with current_download_id := none,
                           current_torrent_id := none,
                           current_torrent_data := none })) := by
  constructor
  · intro hst
    unfold check_download_status
    rw [h1]
    simp only [h2]
    rw [if_pos hst]
  · intro hst hnone
    unfold check_download_status
    rw [h1]
    simp only [h2]
    rw [if_neg (by simp [hst])]
    have hfind : torrent.files.find?
        (fun f => strContains (toLowercase f) (toLowercase ctx.metadata.title)) = none :=
      List.find?_eq_none.mpr (fun x hx => by simp [hnone x hx])
    simp only [hfind]

/-- Adapters reporting a still-downloading torrent. -/
def adPoll : Adapters :=
  ⟨fun _ => .ok [],
   fun _ => .ok [0],
   fun _ => .ok ["t"],
   fun _ _ => .ok 5,
   fun _ => .ok ⟨.Downloading, ["x"]⟩,
   fun _ _ => .ok 9,
   fun _ _ _ => .ok "L"⟩

/-- A state at step `CheckDownloadStatus`. -/
def sChecking : TrackRequestProcessingState :=
  ⟨[7], some 1, some [0], some 5, none, none, none⟩

/-- C7 witness: at a concrete state with an active torrent whose status is
`Downloading`, both parts of the frame theorem hold. -/
theorem check_download_status_frame_witness :
    ((⟨.Downloading, ["x"]⟩ : Torrent).status ≠ .Complete →
      check_download_status adPoll ctx0 sChecking = some (.ok sChecking)) ∧
    ((⟨.Downloading, ["x"]⟩ : Torrent).status = .Complete →
      (∀ f ∈ (⟨.Downloading, ["x"]⟩ : Torrent).files,
        strContains (toLowercase f) (toLowercase ctx0.metadata.title) = false) →
      check_download_status adPoll ctx0 sChecking =
        some (.ok { sChecking with current_download_id := none,
                                   current_torrent_id := none,
                                   current_torrent_data := none })) :=
  check_download_status_frame adPoll ctx0 sChecking 5 ⟨.Downloading, ["x"]⟩ rfl rfl

/-! ## Claim C8: `tried_topics` only grows and stays duplicate-free -/

theorem contains_false_not_mem {l : List Nat} {x : Nat}
    (h : l.contains x = false) : x ∉ l := by
  intro hm
  have h2 : l.contains x = true := by simpa [List.elem_iff] using hm
  rw [h] at h2
  exact Bool.false_ne_true h2

/-- Per-step effect on `tried_topics`: every successful handler invocation
either leaves the list unchanged or appends, at the end, a single topic that
the list did not yet contain. -/
theorem handle_next_step_ok_tried
    {ad : Adapters} {dd : String} {user_id : Nat}
    {ctx : TrackRequestProcessingContext} {s s' : TrackRequestProcessingState}
    (h : handle_next_step ad dd user_id ctx s = some (Except.ok s')) :
    s'.tried_topics = s.tried_topics ∨
      ∃ x, s.tried_topics.contains x = false ∧
        s'.tried_topics = s.tried_topics ++ [x] := by
  unfold handle_next_step at h
  split at h
  · simp only [Option.some.injEq] at h
    obtain ⟨t, hnc, rfl⟩ := search_audio_album_ok h
    exact Or.inr ⟨t.topic_id, hnc, rfl⟩
  · rcases download_torrent_file_ok h with ⟨d, rfl⟩ | rfl
    · exact Or.inl rfl
    · exact Or.inl rfl
  · obtain ⟨tid, rfl⟩ := download_album_ok h
    exact Or.inl rfl
  · rcases check_download_status_ok h with rfl | ⟨f, rfl⟩ | rfl <;> exact Or.inl rfl
  · obtain ⟨t, rfl⟩ := upload_to_radio_manager_ok h
    exact Or.inl rfl
  · obtain ⟨l, rfl⟩ := add_to_radio_manager_channel_ok h
    exact Or.inl rfl
  · simp only [Option.some.injEq, Except.ok.injEq] at h
    subst h
    exact Or.inl rfl

/-- Relation `HandlerReach s t`: state `t` is reachable from state `s` by a sequence of
successful handler executions (each step may use its own adapters, context,
user and download directory, so arbitrary time-varying adapter behaviour is
covered). -/
inductive HandlerReach : TrackRequestProcessingState → TrackRequestProcessingState → Prop
  | refl (s : TrackRequestProcessingState) : HandlerReach s s
  | step {s t u : TrackRequestProcessingState} (ad : Adapters) (dd : String)
      (user_id : Nat) (ctx : TrackRequestProcessingContext)
      (hr : HandlerReach s t)
      (h : handle_next_step ad dd user_id ctx t = some (Except.ok u)) :
      HandlerReach s u

/-- C8: across every sequence of handler executions within one request,
`tried_topics` only grows — the earlier list is always an initial segment of
the later one (so no element is ever removed or reordered, and handlers only
append or leave it unchanged) — and if it starts without duplicates it never
acquires one (the default initial state starts empty, hence duplicate-free). -/
theorem tried_topics_monotone_nodup
    {s t : TrackRequestProcessingState} (h : HandlerReach s t) :
    (∃ l, t.tried_topics = s.tried_topics ++ l) ∧
      (s.tried_topics.Nodup → t.tried_topics.Nodup) := by
  induction h with
  | refl => exact ⟨⟨[], by simp⟩, id⟩
  | step ad dd user_id ctx hr hstep ih =>
    obtain ⟨⟨l, hl⟩, hnd⟩ := ih
    rcases handle_next_step_ok_tried hstep with heq | ⟨x, hx, heq⟩
    · exact ⟨⟨l, by rw [heq, hl]⟩, fun hs => heq ▸ hnd hs⟩
    · refine ⟨⟨l ++ [x], by rw [heq, hl, List.append_assoc]⟩, fun hs => ?_⟩
      rw [heq]
      have hnodup := hnd hs
      have hxnot := contains_false_not_mem hx
      rw [List.nodup_append]
      exact ⟨hnodup, List.nodup_singleton x, by simpa using hxnot⟩

/-- C8 witness: the reflexive reachability at the default state instantiates
the theorem (empty `tried_topics` is an initial segment of itself and is
duplicate-free). -/
theorem tried_topics_monotone_nodup_witness :
    (∃ l, TrackRequestProcessingState.default.tried_topics =
      TrackRequestProcessingState.default.tried_topics ++ l) ∧
      (TrackRequestProcessingState.default.tried_topics.Nodup →
        TrackRequestProcessingState.default.tried_topics.Nodup) :=
  tried_topics_monotone_nodup (HandlerReach.refl TrackRequestProcessingState.default)

/-! ## Claim C9: the on-disk store (`src/storage/on_disk.rs`)

The file system is modelled as a map from full path to contents. `save`
performs, in order: `create_dir_all` (touches only directories, not files),
an `open` with `create(true).write(true).truncate(true)` — which, on success,
truncates an existing file to empty — and a `write_all` of the new value.
The `SaveFault` parameter injects an I/O failure at one of those three
system calls (`noFault` for the successful run). -/

/-- A file system: full path to file contents. -/
abbrev FileSystem := List (String × String)

/-- Read a file, if present. -/
def fsGet (fs : FileSystem) (path : String) : Option String :=
  (fs.find? (fun p => p.1 = path)).map (fun p => p.2)

/-- Write (create-or-replace) a file. -/
def fsSet (fs : FileSystem) (path v : String) : FileSystem :=
  (path, v) :: fs.filter (fun p => p.1 ≠ path)

/-- Which system call of `OnDiskStorage::save` fails, if any. -/
inductive SaveFault
  | noFault
  | createDirFails
  | openFails
  | writeFails
deriving DecidableEq

/-- The path `format!("{}/{}/{}", self.path, prefix, key)`. -/
def OnDiskStorage.file_path (root pfx key : String) : String :=
  root ++ "/" ++ pfx ++ "/" ++ key

/-- Model of `OnDiskStorage::get` (lines 15–27): read the file; `NotFound` is `none`. -/
def OnDiskStorage.get (root : String) (fs : FileSystem) (pfx key : String) :
    Option String :=
  fsGet fs (OnDiskStorage.file_path root pfx key)

/-- Model of `OnDiskStorage::save` (lines 67–89). A failing `create_dir_all` or a
failing `open` leave the file untouched; a failing `write_all` comes after the
successful truncating open, leaving the file EMPTY; on success the file holds
the new value. Returns the resulting file system and whether the save
succeeded. -/
def OnDiskStorage.save (root : String) (fs : FileSystem) (pfx key value : String)
    (fault : SaveFault) : FileSystem × Bool :=
  match fault with
  | .createDirFails => (fs, false)
  | .openFails => (fs, false)
  | .writeFails => (fsSet fs (OnDiskStorage.file_path root pfx key) "", false)
  | .noFault => (fsSet fs (OnDiskStorage.file_path root pfx key) value, true)

/-- C9 (code bug): starting from a store holding "old" at namespace `1-ctx`,
key `k`, a `save` of "new" whose `write_all` fails (after the truncating open
succeeded) reports failure, yet a subsequent `get` returns `some ""` — the
prior value "old" is NOT intact, contradicting the claimed guarantee. -/
theorem on_disk_failed_put_truncates_value :
    OnDiskStorage.get "r" [("r/1-ctx/k", "old")] "1-ctx" "k" = some "old" ∧
    (OnDiskStorage.save "r" [("r/1-ctx/k", "old")] "1-ctx" "k" "new"
        SaveFault.writeFails).2 = false ∧
    OnDiskStorage.get "r"
        (OnDiskStorage.save "r" [("r/1-ctx/k", "old")] "1-ctx" "k" "new"
          SaveFault.writeFails).1 "1-ctx" "k" = some "" := by
  decide

/-! ## Claim C10: startup task enumeration (`get_all_tasks`)

The store root is modelled as `none` (missing or unreadable) or `some` of a
directory listing: namespace name paired with its files (filename, contents).
The function `str::parse::<Uuid>` from the external `uuid` crate is external to the repository and is
supplied as an oracle `uuid_parse`; request ids are abstract naturals.
Directory entries and file contents are assumed readable (individual
`read_to_string` I/O failures are outside this model). -/

/-- One namespace directory under the store root. -/
abbrev DirEntry := String × List (String × String)

/-- Model of `OnDiskStorage::get_prefixes` (on_disk.rs lines 51–65): list the store
root; any failure to read it yields the empty list. -/
def get_prefixes (root : Option (List DirEntry)) : List String :=
  match root with
  | none => []
  | some entries => entries.map (fun e => e.1)

/-- Model of `OnDiskStorage::get_all` (on_disk.rs lines 29–49): the (filename →
contents) map of one namespace directory; a missing directory yields the
empty map. -/
def get_all (root : Option (List DirEntry)) (pfx : String) :
    List (String × String) :=
  match root with
  | none => []
  | some entries =>
    match entries.lookup pfx with
    | none => []
    | some files => files

/-- Model of `get_all_tasks` (impls/track_request_processor.rs lines 195–229): keep the
namespaces ending in "-ctx"; for each, parse the user id from the name with
every occurrence of "-ctx" removed (`prefix.replace("-ctx", "")`), skipping
the namespace if that does not parse as a `u64`; emit one task per key that
parses as a UUID, dropping the keys that do not. -/
def get_all_tasks (root : Option (List DirEntry))
    (uuid_parse : String → Option Nat) : List (Nat × Nat) :=
  ((get_prefixes root).filter (fun p => strEndsWith p "-ctx")).flatMap (fun pfx =>
    let contexts := get_all root pfx
    match parse_u64 (strReplace pfx "-ctx" "") with
    | none => []
    | some user_id =>
      ((contexts.map (fun kv => kv.1)).filterMap uuid_parse).map
        (fun rid => (user_id, rid)))

/-- A root listing with the pathological namespace "1-ctx-ctx". -/
def root10 : Option (List DirEntry) := some [("1-ctx-ctx", [("k", "")])]

/-- A parse oracle accepting exactly the key "k" (as request id 42). -/
def uuidP10 : String → Option Nat := fun s => if s = "k" then some 42 else none

/-- C10 counterexample: the namespace "1-ctx-ctx" ends in "-ctx" and its user
prefix — the name with the final "-ctx" removed, i.e. "1-ctx" — is not a
decimal integer, so by the claim it must be skipped; but the code removes
EVERY occurrence of "-ctx" (`replace`), parses "1" and emits the task
`(1, 42)` instead of skipping the namespace. -/
theorem get_all_tasks_user_prefix_counterexample :
    get_all_tasks root10 uuidP10 = [(1, 42)] ∧
    parse_u64 "1-ctx" = none ∧
    strEndsWith "1-ctx-ctx" "-ctx" = true := by
  decide

/-- C10 (amended): startup task enumeration is total over arbitrary readable
store contents — a missing or unreadable store root yields the empty task
list, namespaces not ending in "-ctx" are skipped, a kept namespace
contributes tasks under the user id parsed from its name with every
occurrence of "-ctx" removed (the namespace is skipped if that does not parse
as a u64), and keys that do not parse as UUIDs are silently dropped — so a
task `(u, r)` is spawned exactly when some namespace of the root listing ends
in "-ctx", its name with "-ctx" occurrences removed parses to `u`, and one of
its keys parses to `r`. -/
theorem get_all_tasks_characterization (root : Option (List DirEntry))
    (uuid_parse : String → Option Nat) :
    get_all_tasks none uuid_parse = [] ∧
    ∀ u r : Nat, ((u, r) ∈ get_all_tasks root uuid_parse ↔
      ∃ pfx, pfx ∈ get_prefixes root ∧ strEndsWith pfx "-ctx" = true ∧
        parse_u64 (strReplace pfx "-ctx" "") = some u ∧
        ∃ k, k ∈ (get_all root pfx).map (fun kv => kv.1) ∧ uuid_parse k = some r) := by
  refine ⟨rfl, fun u r => ?_⟩
  unfold get_all_tasks
  rw [List.mem_flatMap]
  constructor
  · rintro ⟨pfx, hmem, hin⟩
    rw [List.mem_filter] at hmem
    obtain ⟨hpfx, hend⟩ := hmem
    refine ⟨pfx, hpfx, hend, ?_⟩
    simp only [] at hin
    cases hp : parse_u64 (strReplace pfx "-ctx" "") with
    | none => rw [hp] at hin; simp at hin
    | some uid =>
      rw [hp] at hin
      rw [List.mem_map] at hin
      obtain ⟨rid, hrid, huv⟩ := hin
      obtain ⟨hu, hr⟩ := Prod.mk.injEq .. ▸ huv
      subst hu
      subst hr
      rw [List.mem_filterMap] at hrid
      obtain ⟨k, hk, hpk⟩ := hrid
      exact ⟨rfl, k, hk, hpk⟩
  · rintro ⟨pfx, hpfx, hend, hp, k, hk, hpk⟩
    refine ⟨pfx, ?_, ?_⟩
    · rw [List.mem_filter]
      exact ⟨hpfx, hend⟩
    · simp only [hp, List.mem_map]
      exact ⟨r, List.mem_filterMap.mpr ⟨k, hk, hpk⟩, rfl⟩

end ChannelBot
